import Mathlib

/-!
Shallow embedding of `src/agent_setup.py` from the
airbyte-agent-engine-sample-app repository.

The module is initialization glue: it loads a system prompt from a file
beside the module, constructs a pydantic-ai agent with a fixed model name
and a retry budget of 10, and registers one async wrapper tool per
connector (Gong, HubSpot).  Each wrapper forwards `(entity, action,
params or {})` to the connector's `execute` and returns its result
unchanged.

Effects (calls to a connector's `execute`, tracing spans opened by the
`traceable` decorator, Python exceptions) are modelled with a small free
monad `Eff`; an interpreter `Eff.run` is parameterised by an environment
giving each connector's behaviour and the tracing service's behaviour,
and records the list of `execute` calls made.  Exceptions short-circuit
in the interpreter, matching Python propagation: the embedded wrapper
code itself contains no handler, mirroring the absence of try/except in
the source.
-/

namespace AgentSetup

/-- JSON-like values: the arbitrary-shaped parameter mapping entries
(`string → string|number|bool|null|nested mapping`) and connector
results are drawn from this type. -/
inductive Value where
  | str : String → Value
  | num : Int → Value
  | boolean : Bool → Value
  | null : Value
  | obj : List (String × Value) → Value

/-- A Python dict used as a parameter mapping, modelled by its entries. -/
abbrev Params := List (String × Value)

/-- Python exceptions relevant to this module. -/
inductive PyError where
  | fileNotFound : String → PyError
  | connectorError : String → PyError
  | tracingError : String → PyError
deriving DecidableEq

/-- A `GongConnector` instance, identified by its object identity. Its
behaviour lives in the interpreter environment, keyed by `id`. -/
structure GongConnector where
  id : Nat
deriving DecidableEq

/-- A `HubspotConnector` instance, identified by its object identity. -/
structure HubspotConnector where
  id : Nat
deriving DecidableEq

/-- A record of one call to some connector's `execute` method:
which connector object was called and with which arguments. -/
structure Call where
  connId : Nat
  entity : String
  action : String
  params : Option Params

/-- Effectful Python computations of this module: pure returns, awaited
`connector.execute(entity, action, params)` calls, and the span opened
by the `traceable` decorator around a tool invocation. -/
inductive Eff (α : Type) where
  | pure : α → Eff α
  | callExecute : Nat → String → String → Option Params → (Value → Eff α) → Eff α
  | traceEnter : String → Eff α → Eff α

/-- Sequencing of effectful computations. -/
def Eff.bind {α β : Type} : Eff α → (α → Eff β) → Eff β
  | .pure a, f => f a
  | .callExecute cid e a p k, f => .callExecute cid e a p (fun v => (k v).bind f)
  | .traceEnter nm rest, f => .traceEnter nm (rest.bind f)

/-- Behaviour of the connector objects: result (or exception) of
`execute` for a given connector identity and arguments. -/
abbrev ExecEnv := Nat → String → String → Option Params → Except PyError Value

/-- Behaviour of the tracing service when a span with a given name is
opened: success, or an exception. -/
abbrev TraceEnv := String → Except PyError Unit

/-- Interpret an effectful computation against connector and tracing
behaviours.  Returns the Python-level outcome (normal return or
propagated exception) together with the list of `execute` calls made,
in order.  Exceptions short-circuit, as in Python. -/
def Eff.run {α : Type} (ex : ExecEnv) (tr : TraceEnv) : Eff α → Except PyError α × List Call
  | .pure a => (.ok a, [])
  | .callExecute cid e a p k =>
      match ex cid e a p with
      | .error err => (.error err, [⟨cid, e, a, p⟩])
      | .ok v =>
          let rest := (k v).run ex tr
          (rest.1, ⟨cid, e, a, p⟩ :: rest.2)
  | .traceEnter nm rest =>
      match tr nm with
      | .error err => (.error err, [])
      | .ok _ => rest.run ex tr

/-- A tool function as held by the agent after decoration: its Python
name, the attached description, the tracing span name (if any), and its
body. -/
structure ToolFn where
  name : String
  descr : String
  traceName : Option String
  run : String → String → Option Params → Eff Value

/-- The agent object constructed by `create_agent`: model identifier,
deps type annotation, system prompt, retry budget, registered tools. -/
structure Agent where
  model : String
  depsType : String
  systemPrompt : String
  retries : Nat
  tools : List ToolFn

/-- `@agent.tool_plain`: registers the decorated function as a tool on
the agent. -/
def Agent.tool_plain (agent : Agent) (f : ToolFn) : Agent :=
  { agent with tools := agent.tools ++ [f] }

/-- `@traceable(name=nm)` from langsmith: records the span name and
wraps the body so each invocation opens a tracing span first. -/
def traceable (nm : String) (f : ToolFn) : ToolFn :=
  { f with traceName := some nm,
           run := fun entity action params => .traceEnter nm (f.run entity action params) }

/-- `@airbyte_description(tag)` from the vendored connector SDK:
attaches the connector's description text to the function, leaving the
body unchanged. -/
def airbyte_description (tag : String) (f : ToolFn) : ToolFn :=
  { f with descr := tag }

/-- Python `params or {}` on a `dict | None` value: `None` and the empty
dict are falsy, so both yield `{}`; a non-empty dict is returned as is. -/
def pyDictOr (params : Option Params) : Option Params :=
  match params with
  | none => some []
  | some d => if d.isEmpty then some [] else some d

/-- The undecorated body of `gong_execute`:
`return await connector.execute(entity, action, params or \x7b\x7d)`. -/
def gong_execute (connector : GongConnector) : ToolFn :=
  { name := "gong_execute", descr := "", traceName := none,
    run := fun entity action params =>
      .callExecute connector.id entity action (pyDictOr params) .pure }

/-- The undecorated body of `hubspot_execute`, identical in shape. -/
def hubspot_execute (connector : HubspotConnector) : ToolFn :=
  { name := "hubspot_execute", descr := "", traceName := none,
    run := fun entity action params =>
      .callExecute connector.id entity action (pyDictOr params) .pure }

/-- The fully decorated gong tool:
`@agent.tool_plain @airbyte_description("gong") @traceable(name="gong_execute")`
applied bottom-up to `gong_execute`. -/
def gongTool (connector : GongConnector) : ToolFn :=
  airbyte_description "gong" (traceable "gong_execute" (gong_execute connector))

/-- The fully decorated hubspot tool. -/
def hubspotTool (connector : HubspotConnector) : ToolFn :=
  airbyte_description "hubspot" (traceable "hubspot_execute" (hubspot_execute connector))

/-- `register_gong_tools(agent, connector)`: defines the wrapper,
applies the decorator stack, and registers it on the agent.  The body
performs no awaited calls, so as a computation it is pure. -/
def register_gong_tools (agent : Agent) (connector : GongConnector) : Eff Agent :=
  .pure (agent.tool_plain (gongTool connector))

/-- `register_hubspot_tools(agent, connector)`. -/
def register_hubspot_tools (agent : Agent) (connector : HubspotConnector) : Eff Agent :=
  .pure (agent.tool_plain (hubspotTool connector))

/-- The file system visible to the module: contents by path, `none`
when the file is absent. -/
abbrev FS := String → Option String

/-- The location of the module on disk (`Path(__file__).parent`). -/
structure ModuleCtx where
  dir : String

/-- `Path(__file__).parent / "system_prompt.txt"`. -/
def promptPath (ctx : ModuleCtx) : String :=
  ctx.dir ++ "/system_prompt.txt"

/-- `Path.read_text`: returns the file contents, raising
`FileNotFoundError` when the file is absent. -/
def read_text (fs : FS) (p : String) : Except PyError String :=
  match fs p with
  | none => .error (.fileNotFound p)
  | some s => .ok s

/-- `_load_system_prompt`: read `system_prompt.txt` beside the module
and strip surrounding whitespace. -/
def load_system_prompt (fs : FS) (ctx : ModuleCtx) : Except PyError String :=
  (read_text fs (promptPath ctx)).map String.trim

/-- `create_agent`: construct the model, load the prompt, and build the
agent with `retries=10` and no tools registered yet.  A failure while
loading the prompt propagates and no agent is constructed. -/
def create_agent (fs : FS) (ctx : ModuleCtx) : Except PyError Agent :=
  match load_system_prompt fs ctx with
  | .error e => .error e
  | .ok systemPrompt =>
      .ok { model := "claude-sonnet-4-5-20250929",
            depsType := "Union[GongConnector, HubspotConnector]",
            systemPrompt := systemPrompt,
            retries := 10,
            tools := [] }

/-! ### Basic lemmas about the interpreter and the wrappers -/

/-- `params or \x7b\x7d` never yields `None`. -/
theorem pyDictOr_ne_none (params : Option Params) : pyDictOr params ≠ none := by
  cases params with
  | none => simp [pyDictOr]
  | some d =>
      by_cases h : d.isEmpty <;> simp [pyDictOr, h]

/-- On a provided dict, `params or \x7b\x7d` is the same dict (the empty
dict is replaced by an equal empty dict). -/
theorem pyDictOr_some (d : Params) : pyDictOr (some d) = some d := by
  cases d with
  | nil => rfl
  | cons x xs => rfl

/-- Running a single `execute` call returns exactly the environment's
answer for it and records exactly that call. -/
theorem run_callExecute (ex : ExecEnv) (tr : TraceEnv) (cid : Nat)
    (entity action : String) (p : Option Params) :
    Eff.run ex tr (.callExecute cid entity action p .pure)
      = (ex cid entity action p, [⟨cid, entity, action, p⟩]) := by
  unfold Eff.run
  cases h : ex cid entity action p <;> simp [Eff.run, h]

/-- When opening the tracing span succeeds, running the traced body is
running the body. -/
theorem run_traceEnter_ok {α : Type} (ex : ExecEnv) (tr : TraceEnv) (nm : String)
    (h : tr nm = .ok ()) (m : Eff α) :
    Eff.run ex tr (.traceEnter nm m) = Eff.run ex tr m := by
  conv_lhs => rw [Eff.run]
  rw [h]

/-- When opening the tracing span fails, the exception propagates and
no `execute` call is made. -/
theorem run_traceEnter_error {α : Type} (ex : ExecEnv) (tr : TraceEnv) (nm : String)
    (err : PyError) (h : tr nm = .error err) (m : Eff α) :
    Eff.run ex tr (.traceEnter nm m) = (.error err, []) := by
  conv_lhs => rw [Eff.run]
  rw [h]

/-- The decorated gong tool's body, unfolded. -/
theorem gongTool_run (c : GongConnector) (entity action : String) (params : Option Params) :
    (gongTool c).run entity action params
      = .traceEnter "gong_execute"
          (.callExecute c.id entity action (pyDictOr params) .pure) := rfl

/-- The decorated hubspot tool's body, unfolded. -/
theorem hubspotTool_run (c : HubspotConnector) (entity action : String) (params : Option Params) :
    (hubspotTool c).run entity action params
      = .traceEnter "hubspot_execute"
          (.callExecute c.id entity action (pyDictOr params) .pure) := rfl

/-- On `None`, `params or \x7b\x7d` is the empty dict. -/
theorem pyDictOr_none : pyDictOr none = some [] := rfl

/-- Invoking the decorated gong tool, when the tracing span opens
successfully, makes exactly one `execute` call with `params or \x7b\x7d`
and returns the connector's answer unchanged. -/
theorem gongTool_invoke (c : GongConnector) (entity action : String)
    (params : Option Params) (ex : ExecEnv) (tr : TraceEnv)
    (htr : tr "gong_execute" = .ok ()) :
    Eff.run ex tr ((gongTool c).run entity action params)
      = (ex c.id entity action (pyDictOr params),
         [⟨c.id, entity, action, pyDictOr params⟩]) := by
  rw [gongTool_run, run_traceEnter_ok ex tr _ htr, run_callExecute]

/-- Invoking the decorated hubspot tool, same shape. -/
theorem hubspotTool_invoke (c : HubspotConnector) (entity action : String)
    (params : Option Params) (ex : ExecEnv) (tr : TraceEnv)
    (htr : tr "hubspot_execute" = .ok ()) :
    Eff.run ex tr ((hubspotTool c).run entity action params)
      = (ex c.id entity action (pyDictOr params),
         [⟨c.id, entity, action, pyDictOr params⟩]) := by
  rw [hubspotTool_run, run_traceEnter_ok ex tr _ htr, run_callExecute]

/-! ### Claims -/

/-- Claim C1: for every entity, action and provided parameter mapping,
invoking `gong_execute` or `hubspot_execute` calls the underlying
connector's `execute` with exactly those three values unchanged and
returns the result of that call unmodified; when params is omitted,
`execute` receives an empty mapping. -/
theorem claim_C1 (gc : GongConnector) (hc : HubspotConnector)
    (entity action : String) (params : Params) (ex : ExecEnv) (tr : TraceEnv)
    (hg : tr "gong_execute" = .ok ()) (hh : tr "hubspot_execute" = .ok ()) :
    Eff.run ex tr ((gongTool gc).run entity action (some params))
        = (ex gc.id entity action (some params), [⟨gc.id, entity, action, some params⟩])
    ∧ Eff.run ex tr ((gongTool gc).run entity action none)
        = (ex gc.id entity action (some []), [⟨gc.id, entity, action, some []⟩])
    ∧ Eff.run ex tr ((hubspotTool hc).run entity action (some params))
        = (ex hc.id entity action (some params), [⟨hc.id, entity, action, some params⟩])
    ∧ Eff.run ex tr ((hubspotTool hc).run entity action none)
        = (ex hc.id entity action (some []), [⟨hc.id, entity, action, some []⟩]) := by
  refine ⟨?_, ?_, ?_, ?_⟩
  · rw [gongTool_invoke gc entity action (some params) ex tr hg, pyDictOr_some]
  · rw [gongTool_invoke gc entity action none ex tr hg, pyDictOr_none]
  · rw [hubspotTool_invoke hc entity action (some params) ex tr hh, pyDictOr_some]
  · rw [hubspotTool_invoke hc entity action none ex tr hh, pyDictOr_none]

/-- Claim C1 witness: a concrete connector pair, input triple and
environment, with the hypotheses discharged by `rfl`. -/
theorem claim_C1_witness :
    Eff.run (fun cid _e _a _p => .ok (.num (Int.ofNat cid))) (fun _nm => .ok ())
        ((gongTool ⟨0⟩).run "calls" "list" (some [("limit", .num 5)]))
      = (.ok (.num 0), [⟨0, "calls", "list", some [("limit", .num 5)]⟩])
    ∧ Eff.run (fun cid _e _a _p => .ok (.num (Int.ofNat cid))) (fun _nm => .ok ())
        ((gongTool ⟨0⟩).run "calls" "list" none)
      = (.ok (.num 0), [⟨0, "calls", "list", some []⟩])
    ∧ Eff.run (fun cid _e _a _p => .ok (.num (Int.ofNat cid))) (fun _nm => .ok ())
        ((hubspotTool ⟨1⟩).run "calls" "list" (some [("limit", .num 5)]))
      = (.ok (.num 1), [⟨1, "calls", "list", some [("limit", .num 5)]⟩])
    ∧ Eff.run (fun cid _e _a _p => .ok (.num (Int.ofNat cid))) (fun _nm => .ok ())
        ((hubspotTool ⟨1⟩).run "calls" "list" none)
      = (.ok (.num 1), [⟨1, "calls", "list", some []⟩]) := by
  exact claim_C1 ⟨0⟩ ⟨1⟩ "calls" "list" [("limit", .num 5)]
    (fun cid _e _a _p => .ok (.num (Int.ofNat cid))) (fun _nm => .ok ()) rfl rfl

/-- Claim C2: for every content of `system_prompt.txt` (the empty string
included), the system prompt loaded and passed to the `Agent`
constructor is that content trimmed of surrounding whitespace, read from
`system_prompt.txt` beside the module. -/
theorem claim_C2 (fs : FS) (ctx : ModuleCtx) (s : String)
    (h : fs (promptPath ctx) = some s) :
    load_system_prompt fs ctx = .ok s.trim
    ∧ create_agent fs ctx
        = .ok { model := "claude-sonnet-4-5-20250929",
                depsType := "Union[GongConnector, HubspotConnector]",
                systemPrompt := s.trim,
                retries := 10,
                tools := [] } := by
  have h1 : load_system_prompt fs ctx = .ok s.trim := by
    simp [load_system_prompt, read_text, h, Except.map]
  refine ⟨h1, ?_⟩
  unfold create_agent
  rw [h1]

/-- Claim C2 witness: a non-empty prompt file and an empty prompt file,
each read back trimmed. -/
theorem claim_C2_witness :
    (load_system_prompt (fun _p => some "  Hello agent.\n") ⟨"/app"⟩
        = .ok ("  Hello agent.\n".trim)
      ∧ create_agent (fun _p => some "  Hello agent.\n") ⟨"/app"⟩
        = .ok { model := "claude-sonnet-4-5-20250929",
                depsType := "Union[GongConnector, HubspotConnector]",
                systemPrompt := "  Hello agent.\n".trim,
                retries := 10,
                tools := [] })
    ∧ (load_system_prompt (fun _p => some "") ⟨"/app"⟩ = .ok ("".trim)
      ∧ create_agent (fun _p => some "") ⟨"/app"⟩
        = .ok { model := "claude-sonnet-4-5-20250929",
                depsType := "Union[GongConnector, HubspotConnector]",
                systemPrompt := "".trim,
                retries := 10,
                tools := [] }) := by
  exact ⟨claim_C2 (fun _p => some "  Hello agent.\n") ⟨"/app"⟩ "  Hello agent.\n" rfl,
         claim_C2 (fun _p => some "") ⟨"/app"⟩ "" rfl⟩

/-- Claim C3: a connector `execute` error, a missing prompt file, or a
tracing failure each propagate unmodified: the wrappers and
`create_agent` add no validation, branching, translation or recovery. -/
theorem claim_C3 :
    (∀ (gc : GongConnector) (entity action : String) (params : Option Params)
        (ex : ExecEnv) (tr : TraceEnv) (err : PyError),
        tr "gong_execute" = .ok () →
        ex gc.id entity action (pyDictOr params) = .error err →
        Eff.run ex tr ((gongTool gc).run entity action params)
          = (.error err, [⟨gc.id, entity, action, pyDictOr params⟩]))
    ∧ (∀ (hc : HubspotConnector) (entity action : String) (params : Option Params)
        (ex : ExecEnv) (tr : TraceEnv) (err : PyError),
        tr "hubspot_execute" = .ok () →
        ex hc.id entity action (pyDictOr params) = .error err →
        Eff.run ex tr ((hubspotTool hc).run entity action params)
          = (.error err, [⟨hc.id, entity, action, pyDictOr params⟩]))
    ∧ (∀ (gc : GongConnector) (entity action : String) (params : Option Params)
        (ex : ExecEnv) (tr : TraceEnv) (terr : PyError),
        tr "gong_execute" = .error terr →
        Eff.run ex tr ((gongTool gc).run entity action params) = (.error terr, []))
    ∧ (∀ (hc : HubspotConnector) (entity action : String) (params : Option Params)
        (ex : ExecEnv) (tr : TraceEnv) (terr : PyError),
        tr "hubspot_execute" = .error terr →
        Eff.run ex tr ((hubspotTool hc).run entity action params) = (.error terr, []))
    ∧ (∀ (fs : FS) (ctx : ModuleCtx),
        fs (promptPath ctx) = none →
        create_agent fs ctx = .error (.fileNotFound (promptPath ctx))) := by
  refine ⟨?_, ?_, ?_, ?_, ?_⟩
  · intro gc entity action params ex tr err hg herr
    rw [gongTool_invoke gc entity action params ex tr hg, herr]
  · intro hc entity action params ex tr err hh herr
    rw [hubspotTool_invoke hc entity action params ex tr hh, herr]
  · intro gc entity action params ex tr terr hg
    rw [gongTool_run, run_traceEnter_error ex tr _ terr hg]
  · intro hc entity action params ex tr terr hh
    rw [hubspotTool_run, run_traceEnter_error ex tr _ terr hh]
  · intro fs ctx h
    simp [create_agent, load_system_prompt, read_text, h, Except.map]

/-- Claim C3 witness: a failing connector, a failing tracer, and a
missing prompt file, each at concrete inputs. -/
theorem claim_C3_witness :
    Eff.run (fun _cid _e _a _p => .error (.connectorError "boom")) (fun _nm => .ok ())
        ((gongTool ⟨0⟩).run "calls" "list" none)
      = (.error (.connectorError "boom"), [⟨0, "calls", "list", some []⟩])
    ∧ Eff.run (fun _cid _e _a _p => .error (.connectorError "boom")) (fun _nm => .ok ())
        ((hubspotTool ⟨1⟩).run "deals" "get" none)
      = (.error (.connectorError "boom"), [⟨1, "deals", "get", some []⟩])
    ∧ Eff.run (fun _cid _e _a _p => .ok .null) (fun _nm => .error (.tracingError "down"))
        ((gongTool ⟨0⟩).run "calls" "list" none)
      = (.error (.tracingError "down"), [])
    ∧ Eff.run (fun _cid _e _a _p => .ok .null) (fun _nm => .error (.tracingError "down"))
        ((hubspotTool ⟨1⟩).run "deals" "get" none)
      = (.error (.tracingError "down"), [])
    ∧ create_agent (fun _p => none) ⟨"/app"⟩
      = .error (.fileNotFound (promptPath ⟨"/app"⟩)) := by
  exact ⟨claim_C3.1 ⟨0⟩ "calls" "list" none _ _ (.connectorError "boom") rfl rfl,
         claim_C3.2.1 ⟨1⟩ "deals" "get" none _ _ (.connectorError "boom") rfl rfl,
         claim_C3.2.2.1 ⟨0⟩ "calls" "list" none _ _ (.tracingError "down") rfl,
         claim_C3.2.2.2.1 ⟨1⟩ "deals" "get" none _ _ (.tracingError "down") rfl,
         claim_C3.2.2.2.2 (fun _p => none) ⟨"/app"⟩ rfl⟩

/-- Claim C4: if `system_prompt.txt` is absent, `create_agent` raises
and no agent is constructed. -/
theorem claim_C4 (fs : FS) (ctx : ModuleCtx) (h : fs (promptPath ctx) = none) :
    create_agent fs ctx = .error (.fileNotFound (promptPath ctx))
    ∧ ∀ ag : Agent, create_agent fs ctx ≠ .ok ag := by
  have h1 : create_agent fs ctx = .error (.fileNotFound (promptPath ctx)) := by
    simp [create_agent, load_system_prompt, read_text, h, Except.map]
  refine ⟨h1, ?_⟩
  intro ag hag
  rw [h1] at hag
  exact Except.noConfusion hag

/-- Claim C4 witness: an empty file system. -/
theorem claim_C4_witness :
    create_agent (fun _p => none) ⟨"/home/mod"⟩
      = .error (.fileNotFound (promptPath ⟨"/home/mod"⟩))
    ∧ ∀ ag : Agent, create_agent (fun _p => none) ⟨"/home/mod"⟩ ≠ .ok ag := by
  exact claim_C4 (fun _p => none) ⟨"/home/mod"⟩ rfl

/-- Claim C5: each of `register_gong_tools` and `register_hubspot_tools`
registers exactly one tool entry point on the given agent — the agent's
tool list grows by exactly the one decorated wrapper — and that wrapper's
body is a single forward of `(entity, action, params or \x7b\x7d)` to the
`execute` of the connector instance it was given. -/
theorem claim_C5 (agent : Agent) (gc : GongConnector) (hc : HubspotConnector)
    (ex : ExecEnv) (tr : TraceEnv) :
    Eff.run ex tr (register_gong_tools agent gc)
      = (.ok { agent with tools := agent.tools ++ [gongTool gc] }, [])
    ∧ Eff.run ex tr (register_hubspot_tools agent hc)
      = (.ok { agent with tools := agent.tools ++ [hubspotTool hc] }, [])
    ∧ (∀ (entity action : String) (params : Option Params),
        (gongTool gc).run entity action params
          = .traceEnter "gong_execute"
              (.callExecute gc.id entity action (pyDictOr params) .pure))
    ∧ (∀ (entity action : String) (params : Option Params),
        (hubspotTool hc).run entity action params
          = .traceEnter "hubspot_execute"
              (.callExecute hc.id entity action (pyDictOr params) .pure)) := by
  exact ⟨rfl, rfl, fun _ _ _ => rfl, fun _ _ _ => rfl⟩

/-- Claim C6: `create_agent` builds the agent with a retry budget of
exactly 10, and the wrappers themselves contribute no retry: a single
tool invocation consults the connector's `execute` at most once, whatever
the environments do. -/
theorem claim_C6 (fs : FS) (ctx : ModuleCtx) (gc : GongConnector) (hc : HubspotConnector) :
    (∀ ag : Agent, create_agent fs ctx = .ok ag → ag.retries = 10)
    ∧ (∀ (entity action : String) (params : Option Params) (ex : ExecEnv) (tr : TraceEnv),
        (Eff.run ex tr ((gongTool gc).run entity action params)).2.length ≤ 1)
    ∧ (∀ (entity action : String) (params : Option Params) (ex : ExecEnv) (tr : TraceEnv),
        (Eff.run ex tr ((hubspotTool hc).run entity action params)).2.length ≤ 1) := by
  refine ⟨?_, ?_, ?_⟩
  · intro ag hag
    unfold create_agent at hag
    cases h : load_system_prompt fs ctx with
    | error e => rw [h] at hag; exact absurd hag (by simp)
    | ok sp =>
        rw [h] at hag
        simp only [Except.ok.injEq] at hag
        rw [← hag]
  · intro entity action params ex tr
    rw [gongTool_run]
    cases htr : tr "gong_execute" with
    | error terr => rw [run_traceEnter_error ex tr _ terr htr]; simp
    | ok u =>
        cases u
        rw [run_traceEnter_ok ex tr _ htr, run_callExecute]
        simp
  · intro entity action params ex tr
    rw [hubspotTool_run]
    cases htr : tr "hubspot_execute" with
    | error terr => rw [run_traceEnter_error ex tr _ terr htr]; simp
    | ok u =>
        cases u
        rw [run_traceEnter_ok ex tr _ htr, run_callExecute]
        simp

/-- Claim C6 witness: a concrete prompt file yields an agent with
retries 10, and concrete invocations make at most one call. -/
theorem claim_C6_witness :
    ({ model := "claude-sonnet-4-5-20250929",
       depsType := "Union[GongConnector, HubspotConnector]",
       systemPrompt := "Hi".trim,
       retries := 10,
       tools := [] } : Agent).retries = 10
    ∧ (Eff.run (fun _cid _e _a _p => .ok .null) (fun _nm => .ok ())
        ((gongTool ⟨0⟩).run "calls" "list" none)).2.length ≤ 1
    ∧ (Eff.run (fun _cid _e _a _p => .ok .null) (fun _nm => .ok ())
        ((hubspotTool ⟨1⟩).run "deals" "get" none)).2.length ≤ 1 := by
  refine ⟨(claim_C6 (fun _p => some "Hi") ⟨"/app"⟩ ⟨0⟩ ⟨1⟩).1 _ rfl, ?_, ?_⟩
  · exact (claim_C6 (fun _p => some "Hi") ⟨"/app"⟩ ⟨0⟩ ⟨1⟩).2.1 "calls" "list" none
      (fun _cid _e _a _p => .ok .null) (fun _nm => .ok ())
  · exact (claim_C6 (fun _p => some "Hi") ⟨"/app"⟩ ⟨0⟩ ⟨1⟩).2.2 "deals" "get" none
      (fun _cid _e _a _p => .ok .null) (fun _nm => .ok ())

/-- Claim C7: registering twice for the same connector type yields two
independent entry points: both tools sit on the agent, the tool built
over `c1` only ever calls `c1`, and its invocation outcome is unchanged
by any change to the behaviour of other connectors. -/
theorem claim_C7 (agent : Agent) (c1 c2 : GongConnector) :
    (∀ (ex : ExecEnv) (tr : TraceEnv),
        Eff.run ex tr
            ((register_gong_tools agent c1).bind (fun a1 => register_gong_tools a1 c2))
          = (.ok { agent with tools := agent.tools ++ [gongTool c1, gongTool c2] }, []))
    ∧ (∀ (entity action : String) (params : Option Params) (ex : ExecEnv) (tr : TraceEnv)
        (call : Call),
        call ∈ (Eff.run ex tr ((gongTool c1).run entity action params)).2 →
        call.connId = c1.id)
    ∧ (∀ (entity action : String) (params : Option Params)
        (ex₁ ex₂ : ExecEnv) (tr : TraceEnv),
        (∀ (e a : String) (p : Option Params), ex₁ c1.id e a p = ex₂ c1.id e a p) →
        Eff.run ex₁ tr ((gongTool c1).run entity action params)
          = Eff.run ex₂ tr ((gongTool c1).run entity action params)) := by
  refine ⟨?_, ?_, ?_⟩
  · intro ex tr
    simp [register_gong_tools, Eff.bind, Eff.run, Agent.tool_plain]
  · intro entity action params ex tr call hcall
    rw [gongTool_run] at hcall
    cases htr : tr "gong_execute" with
    | error terr =>
        rw [run_traceEnter_error ex tr _ terr htr] at hcall
        simp at hcall
    | ok u =>
        cases u
        rw [run_traceEnter_ok ex tr _ htr, run_callExecute] at hcall
        simp at hcall
        rw [hcall]
  · intro entity action params ex₁ ex₂ tr hex
    rw [gongTool_run]
    cases htr : tr "gong_execute" with
    | error terr =>
        rw [run_traceEnter_error ex₁ tr _ terr htr,
            run_traceEnter_error ex₂ tr _ terr htr]
    | ok u =>
        cases u
        rw [run_traceEnter_ok ex₁ tr _ htr, run_traceEnter_ok ex₂ tr _ htr,
            run_callExecute, run_callExecute, hex entity action (pyDictOr params)]

/-- Claim C7 witness: two registrations on a concrete agent, and a
concrete change to the second connector's behaviour that leaves the
first tool's invocation outcome untouched. -/
theorem claim_C7_witness :
    Eff.run (fun _cid _e _a _p => .ok .null) (fun _nm => .ok ())
        ((register_gong_tools ⟨"m", "d", "sp", 10, []⟩ ⟨0⟩).bind
          (fun a1 => register_gong_tools a1 ⟨1⟩))
      = (.ok { (⟨"m", "d", "sp", 10, []⟩ : Agent) with
               tools := (⟨"m", "d", "sp", 10, []⟩ : Agent).tools ++ [gongTool ⟨0⟩, gongTool ⟨1⟩] }, [])
    ∧ Eff.run (fun _cid _e _a _p => .ok (.str "r1")) (fun _nm => .ok ())
        ((gongTool ⟨0⟩).run "calls" "list" none)
      = Eff.run (fun cid _e _a _p =>
            if cid = 0 then .ok (.str "r1") else .error (.connectorError "changed"))
          (fun _nm => .ok ())
          ((gongTool ⟨0⟩).run "calls" "list" none) := by
  refine ⟨(claim_C7 ⟨"m", "d", "sp", 10, []⟩ ⟨0⟩ ⟨1⟩).1 _ _, ?_⟩
  exact (claim_C7 ⟨"m", "d", "sp", 10, []⟩ ⟨0⟩ ⟨1⟩).2.2 "calls" "list" none
    (fun _cid _e _a _p => .ok (.str "r1"))
    (fun cid _e _a _p =>
      if cid = 0 then .ok (.str "r1") else .error (.connectorError "changed"))
    (fun _nm => .ok ()) (fun _e _a _p => rfl)

/-- Claim C8: an explicitly passed `None` for params is forwarded as the
empty mapping, and the connector never receives `None` as its params
argument from these wrappers. -/
theorem claim_C8 (gc : GongConnector) (hc : HubspotConnector)
    (entity action : String) (ex : ExecEnv) (tr : TraceEnv)
    (hg : tr "gong_execute" = .ok ()) (hh : tr "hubspot_execute" = .ok ()) :
    Eff.run ex tr ((gongTool gc).run entity action none)
      = (ex gc.id entity action (some []), [⟨gc.id, entity, action, some []⟩])
    ∧ Eff.run ex tr ((hubspotTool hc).run entity action none)
      = (ex hc.id entity action (some []), [⟨hc.id, entity, action, some []⟩])
    ∧ (∀ (params : Option Params) (call : Call),
        call ∈ (Eff.run ex tr ((gongTool gc).run entity action params)).2 →
        call.params ≠ none)
    ∧ (∀ (params : Option Params) (call : Call),
        call ∈ (Eff.run ex tr ((hubspotTool hc).run entity action params)).2 →
        call.params ≠ none) := by
  refine ⟨?_, ?_, ?_, ?_⟩
  · rw [gongTool_invoke gc entity action none ex tr hg, pyDictOr_none]
  · rw [hubspotTool_invoke hc entity action none ex tr hh, pyDictOr_none]
  · intro params call hcall
    rw [gongTool_invoke gc entity action params ex tr hg] at hcall
    simp at hcall
    rw [hcall]
    exact pyDictOr_ne_none params
  · intro params call hcall
    rw [hubspotTool_invoke hc entity action params ex tr hh] at hcall
    simp at hcall
    rw [hcall]
    exact pyDictOr_ne_none params

/-- Claim C8 witness: concrete invocations with `None` params. -/
theorem claim_C8_witness :
    Eff.run (fun _cid _e _a _p => .ok .null) (fun _nm => .ok ())
        ((gongTool ⟨0⟩).run "users" "list" none)
      = (.ok .null, [⟨0, "users", "list", some []⟩])
    ∧ Eff.run (fun _cid _e _a _p => .ok .null) (fun _nm => .ok ())
        ((hubspotTool ⟨1⟩).run "users" "list" none)
      = (.ok .null, [⟨1, "users", "list", some []⟩])
    ∧ (∀ call : Call,
        call ∈ (Eff.run (fun _cid _e _a _p => .ok .null) (fun _nm => .ok ())
          ((gongTool ⟨0⟩).run "users" "list" none)).2 → call.params ≠ none) := by
  have h := claim_C8 ⟨0⟩ ⟨1⟩ "users" "list"
    (fun _cid _e _a _p => .ok .null) (fun _nm => .ok ()) rfl rfl
  exact ⟨h.1, h.2.1, h.2.2.1 none⟩

/-- Claim C9: calling a register function makes no `execute` call:
registration only stores the wrapped function on the agent, and the
connector is first consulted exactly when the registered tool is later
invoked. -/
theorem claim_C9 (agent : Agent) (gc : GongConnector) (hc : HubspotConnector) :
    (∀ (ex : ExecEnv) (tr : TraceEnv),
        (Eff.run ex tr (register_gong_tools agent gc)).2 = [])
    ∧ (∀ (ex : ExecEnv) (tr : TraceEnv),
        (Eff.run ex tr (register_hubspot_tools agent hc)).2 = [])
    ∧ (∀ (entity action : String) (params : Option Params) (ex : ExecEnv) (tr : TraceEnv),
        tr "gong_execute" = .ok () →
        (Eff.run ex tr ((gongTool gc).run entity action params)).2
          = [⟨gc.id, entity, action, pyDictOr params⟩])
    ∧ (∀ (entity action : String) (params : Option Params) (ex : ExecEnv) (tr : TraceEnv),
        tr "hubspot_execute" = .ok () →
        (Eff.run ex tr ((hubspotTool hc).run entity action params)).2
          = [⟨hc.id, entity, action, pyDictOr params⟩]) := by
  refine ⟨fun _ _ => rfl, fun _ _ => rfl, ?_, ?_⟩
  · intro entity action params ex tr htr
    rw [gongTool_invoke gc entity action params ex tr htr]
  · intro entity action params ex tr htr
    rw [hubspotTool_invoke hc entity action params ex tr htr]

/-- Claim C9 witness: registration on a concrete agent records no call;
a later concrete invocation records exactly one. -/
theorem claim_C9_witness :
    (Eff.run (fun _cid _e _a _p => .ok .null) (fun _nm => .ok ())
        (register_gong_tools ⟨"m", "d", "sp", 10, []⟩ ⟨0⟩)).2 = []
    ∧ (Eff.run (fun _cid _e _a _p => .ok .null) (fun _nm => .ok ())
        (register_hubspot_tools ⟨"m", "d", "sp", 10, []⟩ ⟨1⟩)).2 = []
    ∧ (Eff.run (fun _cid _e _a _p => .ok .null) (fun _nm => .ok ())
        ((gongTool ⟨0⟩).run "calls" "get" none)).2 = [⟨0, "calls", "get", some []⟩] := by
  have h := claim_C9 ⟨"m", "d", "sp", 10, []⟩ ⟨0⟩ ⟨1⟩
  refine ⟨h.1 _ _, h.2.1 _ _, ?_⟩
  have h3 := h.2.2.1 "calls" "get" none
    (fun _cid _e _a _p => .ok .null) (fun _nm => .ok ()) rfl
  rw [h3]
  rfl

end AgentSetup
